import Mathlib

/-!
Shallow embedding of the transaction-handler pipeline of go-algorand
(data/txHandler.go): the gossip ingestion path, the dual-queue dispatcher
loop, asynchronous signature verification, the fast-reject filter and the
solicited path.

External collaborator types (signed transactions, peers, errors, raw bytes,
protocol identifiers, consensus parameters, addresses, rounds) are type
parameters; external collaborator operations (the canonical encoder, the
stream decoder, the transaction pool, the ledger, the verification engine)
are fields of an environment record.  The handler code itself is translated
definition by definition from the source.
-/

namespace TxHandler

/-- Forwarding policy of an outgoing network message.  Modelled from the
spec: the network layer handler outcome enum of the network package (not in
the excerpt); the spec lists the outcomes as ignore and disconnect-sender,
and the Go enum declares Ignore as its first constant, so the zero value of
the enum (and hence of an empty OutgoingMessage literal) is Ignore. -/
inductive ForwardingPolicy : Type
  | Ignore : ForwardingPolicy
  | Disconnect : ForwardingPolicy
  | Broadcast : ForwardingPolicy
deriving DecidableEq, Repr

/-- network.OutgoingMessage, reduced to the field the handler uses.  The
empty Go literal OutgoingMessage\x7b\x7d has Action = Ignore (zero value). -/
structure OutgoingMessage : Type where
  Action : ForwardingPolicy
deriving DecidableEq, Repr

/-- network.IncomingMessage, reduced to the fields the handler uses:
the sender identity and the raw payload bytes. -/
structure IncomingMessage (S B : Type) : Type where
  Sender : S
  Data : List B
deriving DecidableEq, Repr

/-- transactions.SpecialAddresses: the special addresses of a round. -/
structure SpecialAddresses (A : Type) : Type where
  FeeSink : A
  RewardsPool : A
deriving DecidableEq, Repr

/-- bookkeeping.BlockHeader, reduced to the fields checkAlreadyCommitted
reads from the latest header. -/
structure BlockHeader (P A : Type) : Type where
  CurrentProtocol : P
  FeeSink : A
  RewardsPool : A
deriving DecidableEq, Repr

/-- txBacklogMsg: the work unit tracking a single incoming transaction
group.  rawmsg is a pointer in Go and is nil for items built by the
solicited path, hence an Option here.  proto and spec start as Go zero
values (supplied by the environment) and are filled in by
checkAlreadyCommitted; verificationErr is the Go nil error, an Option. -/
structure TxBacklogMsg (T S E B C A : Type) : Type where
  rawmsg : Option (IncomingMessage S B)
  unverifiedTxGroup : List T
  proto : C
  spec : SpecialAddresses A
  verificationErr : Option E
deriving DecidableEq, Repr

/-- One call to net.Relay, recording the payload bytes and the excluded
sender argument (None when the Go code would pass a nil peer). -/
structure RelayCall (S B : Type) : Type where
  data : List B
  excludedSender : Option S
deriving DecidableEq, Repr

/-- The externally visible side effects a handler function performs:
peers disconnected, the transactionMessagesHandled counter increments,
the groups passed to txPool.Remember, and the relay calls made. -/
structure Effects (T S B : Type) : Type where
  disconnects : List S
  handledInc : Nat
  rememberCalls : List (List T)
  relays : List (RelayCall S B)
deriving DecidableEq, Repr

/-- The external collaborators of the handler: canonical encoder, stream
decoder, transaction pool, ledger, consensus table and verification
engine, together with the Go zero values of the snapshot field types.
decodeResults gives the successive outcomes of dec.Decode on a byte
payload; the end of the list is the io.EOF outcome. -/
structure Env (T S E B P C A R : Type) : Type where
  encode : T → List B
  decodeResults : List B → List (Except E T)
  poolTest : List T → Option E
  remember : List T → Option E
  ledgerLatest : R
  blockHdr : R → Except E (BlockHeader P A)
  consensus : P → C
  verifyTxn : T → SpecialAddresses A → C → Option E
  verifyTxnPool : T → SpecialAddresses A → C → Option E
  zeroParams : C
  zeroAddr : A

variable {T S E B P C A R : Type}

/-- txBacklogSize: capacity of both bounded queues. -/
def txBacklogSize : Nat := 1000

/-- reencode: encodes every transaction of the group with the canonical
encoder and joins the byte slices (bytes.Join with a nil separator is
plain concatenation). -/
def reencode (encode : T → List B) (stxns : List T) : List B :=
  (stxns.map encode).flatten

/-- The decode loop of processIncomingTxn (the for loop over dec.Decode):
collects decoded transactions in order until io.EOF, returning none as
soon as one record fails to decode.  The capacity-doubling of the Go
slice is an allocation detail; the observable result is the decoded
prefix unverifiedTxGroup[:ntx]. -/
def decodeAll : List (Except E T) → Option (List T)
  | [] => some []
  | Except.error _ :: _ => none
  | Except.ok t :: rest => (decodeAll rest).map (t :: ·)

/-- processIncomingTxn: decodes the raw message; on a record decode
failure or an empty group returns Disconnect without touching the
backlog queue; otherwise performs a non-blocking enqueue of a fresh
txBacklogMsg onto the backlog queue (dropping the item and incrementing
the transactionMessagesDroppedFromBacklog counter when the queue is
full) and returns Ignore.  Result: the outgoing message, the new
backlog queue, and the counter increment. -/
def processIncomingTxn (env : Env T S E B P C A R)
    (rawmsg : IncomingMessage S B)
    (backlogQueue : List (TxBacklogMsg T S E B C A)) :
    OutgoingMessage × List (TxBacklogMsg T S E B C A) × Nat :=
  match decodeAll (env.decodeResults rawmsg.Data) with
  | none => (⟨ForwardingPolicy.Disconnect⟩, backlogQueue, 0)
  | some unverifiedTxGroup =>
    if unverifiedTxGroup.length = 0 then
      (⟨ForwardingPolicy.Disconnect⟩, backlogQueue, 0)
    else
      if backlogQueue.length < txBacklogSize then
        (⟨ForwardingPolicy.Ignore⟩,
         backlogQueue ++
           [{ rawmsg := some rawmsg,
              unverifiedTxGroup := unverifiedTxGroup,
              proto := env.zeroParams,
              spec := ⟨env.zeroAddr, env.zeroAddr⟩,
              verificationErr := none }],
         0)
      else
        (⟨ForwardingPolicy.Ignore⟩, backlogQueue, 1)

/-- checkAlreadyCommitted: runs txPool.Test on the unverified group
(returning true, processing done, on rejection), then fetches the latest
block header (returning true on failure), and otherwise fills the proto
and spec snapshot fields of the item from the header and returns false,
continue to verification.  The txid loop only initializes per-transaction
caches and logs; it changes none of the fields modelled here.  The Bool
is the processingDone result; the function signals no error upward. -/
def checkAlreadyCommitted (env : Env T S E B P C A R)
    (tx : TxBacklogMsg T S E B C A) :
    TxBacklogMsg T S E B C A × Bool :=
  match env.poolTest tx.unverifiedTxGroup with
  | some _ => (tx, true)
  | none =>
    match env.blockHdr env.ledgerLatest with
    | Except.error _ => (tx, true)
    | Except.ok latestHdr =>
      ({ tx with
          proto := env.consensus latestHdr.CurrentProtocol,
          spec := { FeeSink := latestHdr.FeeSink,
                    RewardsPool := latestHdr.RewardsPool } },
       false)

/-- postprocessCheckedTxn: handles one item taken from the
postVerificationQueue.  A present verificationErr disconnects the sender
and stops; otherwise the handled counter is incremented, the group is
passed to txPool.Remember, and on successful admission the canonically
re-encoded group (never rawmsg.Data) is relayed with the original sender
excluded. -/
def postprocessCheckedTxn (env : Env T S E B P C A R)
    (wi : TxBacklogMsg T S E B C A) : Effects T S B :=
  match wi.verificationErr with
  | some _ =>
    { disconnects := (wi.rawmsg.map (·.Sender)).toList,
      handledInc := 0, rememberCalls := [], relays := [] }
  | none =>
    match env.remember wi.unverifiedTxGroup with
    | some _ =>
      { disconnects := [], handledInc := 1,
        rememberCalls := [wi.unverifiedTxGroup], relays := [] }
    | none =>
      { disconnects := [], handledInc := 1,
        rememberCalls := [wi.unverifiedTxGroup],
        relays := [{ data := reencode env.encode wi.unverifiedTxGroup,
                     excludedSender := wi.rawmsg.map (·.Sender) }] }

/-- The for loop of asyncVerifySignature: assigns verificationErr the
result of verify.Txn for each transaction in order, breaking at the
first failure; err0 is the value of the field before the loop (returned
unchanged when the group is empty). -/
def verifyLoop (verify : T → SpecialAddresses A → C → Option E)
    (spec : SpecialAddresses A) (proto : C) :
    Option E → List T → Option E
  | err0, [] => err0
  | _, txn :: rest =>
    match verify txn spec proto with
    | some e => some e
    | none => verifyLoop verify spec proto none rest

/-- asyncVerifySignature: verifies the group in sequence order recording
the first failure (or none) on the item, then performs one non-blocking
enqueue onto the postVerificationQueue, dropping the item and
incrementing the transactionMessagesDroppedFromPool counter when that
queue is full.  Result: the updated item, the new queue, and the counter
increment. -/
def asyncVerifySignature (env : Env T S E B P C A R)
    (tx : TxBacklogMsg T S E B C A)
    (postVerificationQueue : List (TxBacklogMsg T S E B C A)) :
    TxBacklogMsg T S E B C A × List (TxBacklogMsg T S E B C A) × Nat :=
  let tx2 : TxBacklogMsg T S E B C A :=
    { tx with
        verificationErr :=
          verifyLoop env.verifyTxn tx.spec tx.proto
            tx.verificationErr tx.unverifiedTxGroup }
  if postVerificationQueue.length < txBacklogSize then
    (tx2, postVerificationQueue ++ [tx2], 0)
  else
    (tx2, postVerificationQueue, 1)

/-- The txBacklogMsg literal processDecoded builds for a solicited
group: no raw message, zero-valued snapshot fields, nil error. -/
def solicitedItem (env : Env T S E B P C A R)
    (unverifiedTxGroup : List T) : TxBacklogMsg T S E B C A :=
  { rawmsg := none,
    unverifiedTxGroup := unverifiedTxGroup,
    proto := env.zeroParams,
    spec := ⟨env.zeroAddr, env.zeroAddr⟩,
    verificationErr := none }

/-- processDecoded: the solicited path body.  Runs checkAlreadyCommitted
(empty message, done on stop), then verify.TxnPool on each transaction
in order (Disconnect, done on the first failure), then txPool.Remember
(empty message, done on refusal; empty message, not done on success).
No relay call appears on this path.  Result: the outgoing message, the
processingDone flag, and the effects performed. -/
def processDecoded (env : Env T S E B P C A R)
    (unverifiedTxGroup : List T) :
    OutgoingMessage × Bool × Effects T S B :=
  let checked := checkAlreadyCommitted env (solicitedItem env unverifiedTxGroup)
  if checked.2 then
    (⟨ForwardingPolicy.Ignore⟩, true,
     { disconnects := [], handledInc := 0, rememberCalls := [], relays := [] })
  else
    match verifyLoop env.verifyTxnPool checked.1.spec checked.1.proto
        none unverifiedTxGroup with
    | some _ =>
      (⟨ForwardingPolicy.Disconnect⟩, true,
       { disconnects := [], handledInc := 0, rememberCalls := [], relays := [] })
    | none =>
      match env.remember unverifiedTxGroup with
      | some _ =>
        (⟨ForwardingPolicy.Ignore⟩, true,
         { disconnects := [], handledInc := 0,
           rememberCalls := [unverifiedTxGroup], relays := [] })
      | none =>
        (⟨ForwardingPolicy.Ignore⟩, false,
         { disconnects := [], handledInc := 0,
           rememberCalls := [unverifiedTxGroup], relays := [] })

/-- solicitedTxHandler.Handle: runs processDecoded, discards the
processingDone flag, and returns an error exactly when the outgoing
message action is Disconnect (the Go error text is kept verbatim). -/
def solicitedHandle (env : Env T S E B P C A R)
    (txgroup : List T) : Option String :=
  let outmsg := (processDecoded env txgroup).1
  if outmsg.Action = ForwardingPolicy.Disconnect then
    some "invlid transaction"
  else
    none

/-- The state of the backlogWorker dispatcher loop at the top of an
iteration: the two bounded queues it owns, the cancellation flag of its
context, the items it has submitted to the verification pool, and the
accumulated externally visible effects. -/
structure WorkerState (T S E B C A : Type) : Type where
  backlogQueue : List (TxBacklogMsg T S E B C A)
  postVerificationQueue : List (TxBacklogMsg T S E B C A)
  cancelled : Bool
  verificationTasks : List (TxBacklogMsg T S E B C A)
  effects : Effects T S B
deriving DecidableEq, Repr

/-- Sequential composition of effect records. -/
def Effects.append (e1 e2 : Effects T S B) : Effects T S B :=
  { disconnects := e1.disconnects ++ e2.disconnects,
    handledInc := e1.handledInc + e2.handledInc,
    rememberCalls := e1.rememberCalls ++ e2.rememberCalls,
    relays := e1.relays ++ e2.relays }

/-- What one iteration of the backlogWorker loop did. -/
inductive WorkerAction (T S E B C A : Type) : Type
  | processedResult : TxBacklogMsg T S E B C A → WorkerAction T S E B C A
  | tookIngestion : TxBacklogMsg T S E B C A → WorkerAction T S E B C A
  | stopped : WorkerAction T S E B C A
deriving DecidableEq, Repr

/-- The state after the dispatcher takes one item off the backlog queue:
it runs checkAlreadyCommitted and, unless that returns processingDone,
submits the item to the verification pool (EnqueueBacklog). -/
def ingestStep (env : Env T S E B P C A R)
    (s : WorkerState T S E B C A)
    (wi : TxBacklogMsg T S E B C A)
    (rest : List (TxBacklogMsg T S E B C A)) :
    WorkerState T S E B C A :=
  let checked := checkAlreadyCommitted env wi
  if checked.2 then
    { s with backlogQueue := rest }
  else
    { s with backlogQueue := rest,
             verificationTasks := s.verificationTasks ++ [checked.1] }

/-- One iteration of the backlogWorker loop, as a step relation.  The
first, non-blocking select takes an item from the postVerificationQueue
whenever it is non-empty (its default branch fires only on an empty
queue).  Only when that queue is empty does the loop reach the blocking
select over the backlog queue, the postVerificationQueue and the
cancellation signal; within one iteration the state is fixed, so the
postVerificationQueue arm of the blocking select (ready only when that
queue is non-empty, which the first select just ruled out) has no
constructor here.  When several arms are ready Go chooses among them,
so the remaining two constructors stay simultaneously enabled.  Channel
closure is not modelled: the queues are plain lists. -/
inductive WorkerStep (env : Env T S E B P C A R) :
    WorkerState T S E B C A → WorkerAction T S E B C A →
    WorkerState T S E B C A → Prop
  | postFirst (s : WorkerState T S E B C A)
      (wi : TxBacklogMsg T S E B C A)
      (rest : List (TxBacklogMsg T S E B C A)) :
      s.postVerificationQueue = wi :: rest →
      WorkerStep env s (WorkerAction.processedResult wi)
        { s with postVerificationQueue := rest,
                 effects := s.effects.append (postprocessCheckedTxn env wi) }
  | backlogArm (s : WorkerState T S E B C A)
      (wi : TxBacklogMsg T S E B C A)
      (rest : List (TxBacklogMsg T S E B C A)) :
      s.postVerificationQueue = [] →
      s.backlogQueue = wi :: rest →
      WorkerStep env s (WorkerAction.tookIngestion wi) (ingestStep env s wi rest)
  | cancelArm (s : WorkerState T S E B C A) :
      s.postVerificationQueue = [] →
      s.cancelled = true →
      WorkerStep env s WorkerAction.stopped s

/-!  Concrete instantiations over Nat carriers, used to evaluate the
definitions on explicit inputs.  encode maps a transaction t to the two
bytes [t, t + 100]; decodeResults reads every byte of the payload as one
successfully decoded transaction. -/

/-- An environment in which every external collaborator succeeds. -/
def envOk : Env Nat Nat Nat Nat Nat Nat Nat Nat :=
  { encode := fun t => [t, t + 100],
    decodeResults := fun data => data.map Except.ok,
    poolTest := fun _ => none,
    remember := fun _ => none,
    ledgerLatest := 5,
    blockHdr := fun _ =>
      Except.ok { CurrentProtocol := 2, FeeSink := 31, RewardsPool := 32 },
    consensus := fun p => p + 40,
    verifyTxn := fun _ _ _ => none,
    verifyTxnPool := fun _ _ _ => none,
    zeroParams := 0,
    zeroAddr := 0 }

/-- Like envOk, except the pool admissibility test rejects every group. -/
def envPoolRejects : Env Nat Nat Nat Nat Nat Nat Nat Nat :=
  { envOk with poolTest := fun _ => some 7 }

/-- Like envOk, except the ledger fails to produce the latest header. -/
def envHdrFails : Env Nat Nat Nat Nat Nat Nat Nat Nat :=
  { envOk with blockHdr := fun _ => Except.error 9 }

/-- Like envOk, except the second decoded record fails to decode. -/
def envDecodeFails : Env Nat Nat Nat Nat Nat Nat Nat Nat :=
  { envOk with
      decodeResults := fun _ => [Except.ok 1, Except.error 8] }

/-- A concrete incoming gossip message from sender 77. -/
def msg0 : IncomingMessage Nat Nat := { Sender := 77, Data := [1, 2] }

/-- A concrete backlog item that passed verification without error. -/
def wiOk : TxBacklogMsg Nat Nat Nat Nat Nat Nat :=
  { rawmsg := some msg0, unverifiedTxGroup := [1, 2],
    proto := 42, spec := ⟨31, 32⟩, verificationErr := none }

/-- A concrete backlog item carrying a verification error. -/
def wiErr : TxBacklogMsg Nat Nat Nat Nat Nat Nat :=
  { wiOk with verificationErr := some 13 }

/-- The concrete item processDecoded builds for the group [1, 2] after
checkAlreadyCommitted filled its snapshot from the envOk header. -/
def wiSolicited : TxBacklogMsg Nat Nat Nat Nat Nat Nat :=
  { rawmsg := none, unverifiedTxGroup := [1, 2],
    proto := 42, spec := ⟨31, 32⟩, verificationErr := none }

/-- A concrete dispatcher state with one item in each queue. -/
def s0 : WorkerState Nat Nat Nat Nat Nat Nat :=
  { backlogQueue := [wiOk], postVerificationQueue := [wiErr],
    cancelled := false, verificationTasks := [],
    effects := ⟨[], 0, [], []⟩ }

/-! Theorems. -/

/-- C1: in every dispatcher state whose Verification Result Queue
(postVerificationQueue) holds at least one item, the step the
backlogWorker takes processes a result-queue item (its head); a step
that takes an item from the Ingestion Queue (backlogQueue) exists only
in states whose Result Queue is empty, so the Result Queue is drained
to empty before any new ingestion item is taken. -/
theorem backlogWorker_prioritizes_postVerificationQueue
    (env : Env T S E B P C A R) (s : WorkerState T S E B C A)
    (a : WorkerAction T S E B C A) (s2 : WorkerState T S E B C A)
    (hstep : WorkerStep env s a s2) :
    (s.postVerificationQueue ≠ [] →
      ∃ wi, a = WorkerAction.processedResult wi ∧
        s.postVerificationQueue.head? = some wi) ∧
    (∀ wi, a = WorkerAction.tookIngestion wi →
      s.postVerificationQueue = []) := by
  cases hstep with
  | postFirst wi rest h =>
      refine ⟨fun _ => ⟨wi, rfl, by rw [h]; rfl⟩, ?_⟩
      intro wi2 hcontra
      exact WorkerAction.noConfusion hcontra
  | backlogArm wi rest hpost hback =>
      exact ⟨fun hne => absurd hpost hne, fun _ _ => hpost⟩
  | cancelArm hpost hcancel =>
      exact ⟨fun hne => absurd hpost hne, fun _ _ => hpost⟩

/-- Witness for C1 at a concrete state with a non-empty Result Queue. -/
theorem backlogWorker_prioritizes_postVerificationQueue_witness :
    ∃ wi, (WorkerAction.processedResult wiErr :
        WorkerAction Nat Nat Nat Nat Nat Nat) =
        WorkerAction.processedResult wi ∧
      s0.postVerificationQueue.head? = some wi :=
  (backlogWorker_prioritizes_postVerificationQueue envOk s0
      (WorkerAction.processedResult wiErr) _
      (WorkerStep.postFirst s0 wiErr [] rfl)).1 (by simp [s0])

/-- C2: an error-free Result Queue item whose group the pool admits
produces exactly one relay call, whose payload is the canonical
re-encoding of the verified group (the concatenation of the canonical
encodings of its transactions in order, not the raw inbound bytes) and
which excludes the original sender. -/
theorem postprocessCheckedTxn_relay_is_reencoded_group
    (env : Env T S E B P C A R) (wi : TxBacklogMsg T S E B C A)
    (m : IncomingMessage S B)
    (hraw : wi.rawmsg = some m) (herr : wi.verificationErr = none)
    (hrem : env.remember wi.unverifiedTxGroup = none) :
    (postprocessCheckedTxn env wi).relays =
      [{ data := reencode env.encode wi.unverifiedTxGroup,
         excludedSender := some m.Sender }] ∧
    reencode env.encode wi.unverifiedTxGroup =
      (wi.unverifiedTxGroup.map env.encode).flatten := by
  constructor
  · simp [postprocessCheckedTxn, herr, hrem, hraw]
  · rfl

/-- Witness for C2 at a concrete admitted item. -/
theorem postprocessCheckedTxn_relay_is_reencoded_group_witness :
    (postprocessCheckedTxn envOk wiOk).relays =
      [{ data := reencode envOk.encode wiOk.unverifiedTxGroup,
         excludedSender := some msg0.Sender }] ∧
    reencode envOk.encode wiOk.unverifiedTxGroup =
      (wiOk.unverifiedTxGroup.map envOk.encode).flatten :=
  postprocessCheckedTxn_relay_is_reencoded_group envOk wiOk msg0 rfl rfl rfl

/-- C3: a Result Queue item carrying a verification error makes the
handler disconnect the sender and nothing else: no pool admission, no
relay, and no increment of the transactions-handled counter. -/
theorem postprocessCheckedTxn_error_disconnects
    (env : Env T S E B P C A R) (wi : TxBacklogMsg T S E B C A)
    (m : IncomingMessage S B) (e : E)
    (hraw : wi.rawmsg = some m) (herr : wi.verificationErr = some e) :
    postprocessCheckedTxn env wi =
      { disconnects := [m.Sender], handledInc := 0,
        rememberCalls := [], relays := [] } := by
  simp [postprocessCheckedTxn, herr, hraw]

/-- Witness for C3 at a concrete failed item. -/
theorem postprocessCheckedTxn_error_disconnects_witness :
    postprocessCheckedTxn envOk wiErr =
      { disconnects := [msg0.Sender], handledInc := 0,
        rememberCalls := [], relays := [] } :=
  postprocessCheckedTxn_error_disconnects envOk wiErr msg0 13 rfl rfl

/-- Counterexample to C4: on a concrete solicited group that passes the
fast-reject filter, verifies, and is admitted by the pool, processDecoded
makes no relay call at all, contrary to the claimed admit-and-relay. -/
theorem processDecoded_no_relay_counterexample :
    (processDecoded envOk [1, 2]).2.2.rememberCalls = [[1, 2]] ∧
    (processDecoded envOk [1, 2]).2.1 = false ∧
    (processDecoded envOk [1, 2]).2.2.relays = [] := by decide

/-- C4 as amended: a solicited group that passes the fast-reject filter
and whose every transaction passes synchronous verification is admitted
to the pool, but no relay call is made on this path (unlike the gossip
path, which relays after admission). -/
theorem processDecoded_admits_without_relay
    (env : Env T S E B P C A R) (group : List T)
    (checked : TxBacklogMsg T S E B C A)
    (hchecked : checkAlreadyCommitted env (solicitedItem env group) =
      (checked, false))
    (hver : verifyLoop env.verifyTxnPool checked.spec checked.proto
      none group = none)
    (hrem : env.remember group = none) :
    processDecoded env group =
      (⟨ForwardingPolicy.Ignore⟩, false,
       { disconnects := [], handledInc := 0,
         rememberCalls := [group], relays := [] }) := by
  simp [processDecoded, hchecked, hver, hrem]

/-- Witness for the amended C4 at a concrete solicited group. -/
theorem processDecoded_admits_without_relay_witness :
    processDecoded envOk [1, 2] =
      (⟨ForwardingPolicy.Ignore⟩, false,
       { disconnects := [], handledInc := 0,
         rememberCalls := [[1, 2]], relays := [] }) :=
  processDecoded_admits_without_relay envOk [1, 2] wiSolicited
    (by decide) rfl rfl

/-- Counterexample to C5: the solicited Handle returns the identical
value (no error) on a concrete run in which fast-reject already handled
the group (processingDone true, nothing admitted) and on a concrete run
that verified and admitted the group, so no distinct no-op outcome
distinguishable from success exists. -/
theorem solicitedHandle_noop_equals_success_counterexample :
    (processDecoded envPoolRejects [1, 2]).2.1 = true ∧
    (processDecoded envPoolRejects [1, 2]).2.2.rememberCalls = [] ∧
    (processDecoded envOk [1, 2]).2.1 = false ∧
    (processDecoded envOk [1, 2]).2.2.rememberCalls = [[1, 2]] ∧
    solicitedHandle envPoolRejects [1, 2] = none ∧
    solicitedHandle envOk [1, 2] = none := by decide

/-- C5 as amended: Handle distinguishes only two outcomes.  It returns
no error both when the group is verified and admitted and when the
fast-reject filter already handled it (the processingDone flag of
processDecoded is discarded), and it returns the error exactly when
some transaction failed the synchronous verification. -/
theorem solicitedHandle_two_outcomes
    (env : Env T S E B P C A R) (txgroup : List T) :
    ((checkAlreadyCommitted env (solicitedItem env txgroup)).2 = true →
      solicitedHandle env txgroup = none) ∧
    (∀ checked : TxBacklogMsg T S E B C A,
      checkAlreadyCommitted env (solicitedItem env txgroup) =
        (checked, false) →
      (solicitedHandle env txgroup = some "invlid transaction" ↔
        verifyLoop env.verifyTxnPool checked.spec checked.proto
          none txgroup ≠ none)) := by
  constructor
  · intro hdone
    simp [solicitedHandle, processDecoded, hdone]
  · intro checked hch
    cases hv : verifyLoop env.verifyTxnPool checked.spec checked.proto
        none txgroup with
    | none =>
        cases hr : env.remember txgroup with
        | none => simp [solicitedHandle, processDecoded, hch, hv, hr]
        | some e => simp [solicitedHandle, processDecoded, hch, hv, hr]
    | some e => simp [solicitedHandle, processDecoded, hch, hv]

/-- Witness for the amended C5: a fast-rejected group yields no error. -/
theorem solicitedHandle_two_outcomes_witness :
    solicitedHandle envPoolRejects [1, 2] = none :=
  (solicitedHandle_two_outcomes envPoolRejects [1, 2]).1 (by decide)

/-- Helper: the decode loop fails as a whole whenever any record of the
stream fails to decode. -/
theorem decodeAll_eq_none_of_mem_error {l : List (Except E T)}
    (h : ∃ e, Except.error e ∈ l) : decodeAll l = none := by
  induction l with
  | nil => rcases h with ⟨e, he⟩; cases he
  | cons x rest ih =>
      rcases h with ⟨e, he⟩
      cases x with
      | error e2 => rfl
      | ok t =>
          have hrest : ∃ e, Except.error e ∈ rest := by
            rcases List.mem_cons.mp he with h1 | h2
            · exact absurd h1 (by simp)
            · exact ⟨e, h2⟩
          simp [decodeAll, ih hrest]

/-- C6: an inbound raw message whose decode stream is empty (zero
transactions) or contains a failing record makes processIncomingTxn
return Disconnect, leave the backlog queue unchanged (no BacklogItem
enqueued) and count nothing — a partially decoded group is never
admitted. -/
theorem processIncomingTxn_rejects_empty_or_undecodable
    (env : Env T S E B P C A R) (rawmsg : IncomingMessage S B)
    (backlogQueue : List (TxBacklogMsg T S E B C A))
    (h : env.decodeResults rawmsg.Data = [] ∨
      ∃ e, Except.error e ∈ env.decodeResults rawmsg.Data) :
    processIncomingTxn env rawmsg backlogQueue =
      (⟨ForwardingPolicy.Disconnect⟩, backlogQueue, 0) := by
  rcases h with h1 | h2
  · simp [processIncomingTxn, h1, decodeAll]
  · simp [processIncomingTxn, decodeAll_eq_none_of_mem_error h2]

/-- Witness for C6 at a concrete stream with a failing second record. -/
theorem processIncomingTxn_rejects_empty_or_undecodable_witness :
    processIncomingTxn envDecodeFails msg0
        ([] : List (TxBacklogMsg Nat Nat Nat Nat Nat Nat)) =
      (⟨ForwardingPolicy.Disconnect⟩, [], 0) :=
  processIncomingTxn_rejects_empty_or_undecodable envDecodeFails msg0 []
    (Or.inr ⟨8, by simp [envDecodeFails, envOk]⟩)

/-- C7: a successfully decoded non-empty message is enqueued without
blocking: when the backlog queue has room the item is appended and
nothing is counted, when it is full the item is dropped and the
dropped-from-backlog counter is incremented, and the handler returns
Ignore (never Disconnect) in both cases. -/
theorem processIncomingTxn_nonblocking_enqueue
    (env : Env T S E B P C A R) (rawmsg : IncomingMessage S B)
    (backlogQueue : List (TxBacklogMsg T S E B C A)) (group : List T)
    (hdec : decodeAll (env.decodeResults rawmsg.Data) = some group)
    (hne : group ≠ []) :
    (processIncomingTxn env rawmsg backlogQueue).1 =
      ⟨ForwardingPolicy.Ignore⟩ ∧
    (backlogQueue.length < txBacklogSize →
      processIncomingTxn env rawmsg backlogQueue =
        (⟨ForwardingPolicy.Ignore⟩,
         backlogQueue ++
           [{ rawmsg := some rawmsg, unverifiedTxGroup := group,
              proto := env.zeroParams,
              spec := ⟨env.zeroAddr, env.zeroAddr⟩,
              verificationErr := none }],
         0)) ∧
    (¬ backlogQueue.length < txBacklogSize →
      processIncomingTxn env rawmsg backlogQueue =
        (⟨ForwardingPolicy.Ignore⟩, backlogQueue, 1)) := by
  have hlen : ¬ group.length = 0 := by
    simpa [List.length_eq_zero] using hne
  by_cases hq : backlogQueue.length < txBacklogSize
  · exact ⟨by simp [processIncomingTxn, hdec, hlen, hq],
      fun _ => by simp [processIncomingTxn, hdec, hlen, hq],
      fun hc => absurd hq hc⟩
  · exact ⟨by simp [processIncomingTxn, hdec, hlen, hq],
      fun hc => absurd hc hq,
      fun _ => by simp [processIncomingTxn, hdec, hlen, hq]⟩

/-- Witness for C7 at a concrete decodable two-record message. -/
theorem processIncomingTxn_nonblocking_enqueue_witness :
    (processIncomingTxn envOk msg0
        ([] : List (TxBacklogMsg Nat Nat Nat Nat Nat Nat))).1 =
      ⟨ForwardingPolicy.Ignore⟩ :=
  (processIncomingTxn_nonblocking_enqueue envOk msg0 [] [1, 2]
    (by decide) (by decide)).1

/-- Helper: the verification loop reports no error when every
transaction of the group verifies. -/
theorem verifyLoop_all_pass (verify : T → SpecialAddresses A → C → Option E)
    (spec : SpecialAddresses A) (proto : C) :
    ∀ l : List T, (∀ t ∈ l, verify t spec proto = none) →
      verifyLoop verify spec proto none l = none := by
  intro l
  induction l with
  | nil => intro _; rfl
  | cons t rest ih =>
      intro h
      have ht := h t (List.mem_cons_self t rest)
      have hrest := ih (fun u hu => h u (List.mem_cons_of_mem t hu))
      simp [verifyLoop, ht, hrest]

/-- Helper: the verification loop stops at the first failing
transaction and returns exactly its error. -/
theorem verifyLoop_first_failure
    (verify : T → SpecialAddresses A → C → Option E)
    (spec : SpecialAddresses A) (proto : C) (e : E) (t : T) :
    ∀ pre post : List T, (∀ u ∈ pre, verify u spec proto = none) →
      verify t spec proto = some e →
      verifyLoop verify spec proto none (pre ++ t :: post) = some e := by
  intro pre
  induction pre with
  | nil => intro post _ ht; simp [verifyLoop, ht]
  | cons u rest ih =>
      intro post h ht
      have hu := h u (List.mem_cons_self u rest)
      simp [verifyLoop, hu]
      exact ih post (fun v hv => h v (List.mem_cons_of_mem u hv)) ht

/-- C8: asyncVerifySignature records on the item no error when every
transaction of the group verifies, and the error of the first failing
transaction otherwise (verification proceeds in sequence order and
stops at the first failure); it then attempts exactly one non-blocking
enqueue onto the Verification Result Queue, appending the decorated
item when the queue has room and otherwise dropping it while
incrementing the dropped-from-pool counter. -/
theorem asyncVerifySignature_first_failure_and_enqueue
    (env : Env T S E B P C A R) (tx : TxBacklogMsg T S E B C A)
    (postVerificationQueue : List (TxBacklogMsg T S E B C A))
    (herr : tx.verificationErr = none) :
    ((∀ t ∈ tx.unverifiedTxGroup, env.verifyTxn t tx.spec tx.proto = none) →
      (asyncVerifySignature env tx postVerificationQueue).1.verificationErr =
        none) ∧
    (∀ (pre : List T) (t : T) (post : List T) (e : E),
      tx.unverifiedTxGroup = pre ++ t :: post →
      (∀ u ∈ pre, env.verifyTxn u tx.spec tx.proto = none) →
      env.verifyTxn t tx.spec tx.proto = some e →
      (asyncVerifySignature env tx postVerificationQueue).1.verificationErr =
        some e) ∧
    (postVerificationQueue.length < txBacklogSize →
      (asyncVerifySignature env tx postVerificationQueue).2.1 =
        postVerificationQueue ++
          [(asyncVerifySignature env tx postVerificationQueue).1] ∧
      (asyncVerifySignature env tx postVerificationQueue).2.2 = 0) ∧
    (¬ postVerificationQueue.length < txBacklogSize →
      (asyncVerifySignature env tx postVerificationQueue).2.1 =
        postVerificationQueue ∧
      (asyncVerifySignature env tx postVerificationQueue).2.2 = 1) := by
  have h1 : (asyncVerifySignature env tx postVerificationQueue).1 =
      { tx with verificationErr := verifyLoop env.verifyTxn tx.spec tx.proto tx.verificationErr tx.unverifiedTxGroup } := by
    by_cases hq : postVerificationQueue.length < txBacklogSize <;>
      simp [asyncVerifySignature, hq]
  refine ⟨?_, ?_, ?_, ?_⟩
  · intro hall
    rw [h1, herr]
    exact verifyLoop_all_pass env.verifyTxn tx.spec tx.proto
      tx.unverifiedTxGroup hall
  · intro pre t post e hgroup hpre ht
    rw [h1, herr, hgroup]
    exact verifyLoop_first_failure env.verifyTxn tx.spec tx.proto e t
      pre post hpre ht
  · intro hq
    constructor <;> simp [asyncVerifySignature, hq]
  · intro hq
    constructor <;> simp [asyncVerifySignature, hq]

/-- Witness for C8 at a concrete all-verifying item. -/
theorem asyncVerifySignature_first_failure_and_enqueue_witness :
    (asyncVerifySignature envOk wiOk
        ([] : List (TxBacklogMsg Nat Nat Nat Nat Nat Nat))).1.verificationErr =
      none :=
  (asyncVerifySignature_first_failure_and_enqueue envOk wiOk [] rfl).1
    (fun _ _ => rfl)

/-- C9: the fast-reject filter returns processingDone (true) — and its
signature carries no error to the caller — both when the pool
admissibility test rejects the group and when the ledger fails to
produce the latest header; otherwise it fills the item snapshot with
the consensus parameters resolved from the latest header and its fee
sink and rewards pool, and returns false (continue). -/
theorem checkAlreadyCommitted_outcomes
    (env : Env T S E B P C A R) (tx : TxBacklogMsg T S E B C A) :
    (∀ e, env.poolTest tx.unverifiedTxGroup = some e →
      checkAlreadyCommitted env tx = (tx, true)) ∧
    (∀ e, env.poolTest tx.unverifiedTxGroup = none →
      env.blockHdr env.ledgerLatest = Except.error e →
      checkAlreadyCommitted env tx = (tx, true)) ∧
    (∀ latestHdr : BlockHeader P A,
      env.poolTest tx.unverifiedTxGroup = none →
      env.blockHdr env.ledgerLatest = Except.ok latestHdr →
      checkAlreadyCommitted env tx =
        ({ tx with proto := env.consensus latestHdr.CurrentProtocol,
                   spec := ⟨latestHdr.FeeSink, latestHdr.RewardsPool⟩ },
         false)) :=
  ⟨fun _ he => by simp [checkAlreadyCommitted, he],
   fun _ hp hh => by simp [checkAlreadyCommitted, hp, hh],
   fun _ hp hh => by simp [checkAlreadyCommitted, hp, hh]⟩

/-- Witness for C9: all three outcomes at concrete environments. -/
theorem checkAlreadyCommitted_outcomes_witness :
    checkAlreadyCommitted envPoolRejects wiOk = (wiOk, true) ∧
    checkAlreadyCommitted envHdrFails wiOk = (wiOk, true) ∧
    checkAlreadyCommitted envOk wiOk =
      ({ wiOk with proto := 42, spec := ⟨31, 32⟩ }, false) :=
  ⟨(checkAlreadyCommitted_outcomes envPoolRejects wiOk).1 7 rfl,
   (checkAlreadyCommitted_outcomes envHdrFails wiOk).2.1 9 rfl rfl,
   (checkAlreadyCommitted_outcomes envOk wiOk).2.2 ⟨2, 31, 32⟩ rfl rfl⟩

/-- C10: the fast-reject filter never changes the raw message envelope
or the verification-error field of the item, and whenever it returns
processingDone (stop) the proto and spec snapshot fields are unchanged
as well — they are assigned only on the continue outcome. -/
theorem checkAlreadyCommitted_frame
    (env : Env T S E B P C A R) (tx : TxBacklogMsg T S E B C A) :
    ((checkAlreadyCommitted env tx).1.rawmsg = tx.rawmsg ∧
     (checkAlreadyCommitted env tx).1.verificationErr =
       tx.verificationErr) ∧
    ((checkAlreadyCommitted env tx).2 = true →
      (checkAlreadyCommitted env tx).1.proto = tx.proto ∧
      (checkAlreadyCommitted env tx).1.spec = tx.spec) := by
  cases hp : env.poolTest tx.unverifiedTxGroup with
  | some e => simp [checkAlreadyCommitted, hp]
  | none =>
      cases hh : env.blockHdr env.ledgerLatest with
      | error e => simp [checkAlreadyCommitted, hp, hh]
      | ok hdr => simp [checkAlreadyCommitted, hp, hh]

/-- Witness for C10: on a concrete stop outcome the snapshot fields of
the item are untouched. -/
theorem checkAlreadyCommitted_frame_witness :
    (checkAlreadyCommitted envHdrFails wiOk).1.proto = wiOk.proto ∧
    (checkAlreadyCommitted envHdrFails wiOk).1.spec = wiOk.spec :=
  (checkAlreadyCommitted_frame envHdrFails wiOk).2 rfl

end TxHandler
